import Mathlib

/-!
# Verification of the WhatsApp support-bot message pipeline

A shallow embedding of the core of the `whatsapp-automation` repository:
the token-budget trimmer (`backend/src/services/context/token-budget.ts`),
the RAG retrieval scoring (`backend/src/services/rag/retrieval.service.ts`),
the LLM confidence extraction (`backend/src/services/llm/gemini.adapter.ts`,
`openai.adapter.ts`), the context assembler
(`backend/src/services/context/context-assembler.ts`), the escalation
manager, and the orchestrating message pipeline
(`backend/src/services/whatsapp/message-pipeline.ts`).

Modelling conventions:
* JavaScript numbers are modelled as `ℚ` (scores and confidences in this
  code are small decimals; no claim under verification depends on float
  rounding).  `NaN` outcomes of `parseFloat` are modelled as `Option.none`.
* Texts whose length or truncation matters (message text, chunk text,
  titles) are `List Char`; JS `string.length` becomes `List.length` and
  `s.slice(0, n)` becomes `List.take n`.
* The `customer_profile`, `session_metadata` and `automation_config`
  components enter the trimmer only through `JSON.stringify(x).length`;
  they are modelled by their serialized form (a `List Char`), which is a
  function of the record and preserves everything the code under
  verification reads from them.
* Database reads and writes, the vector store, the embedder, the LLM and
  the transport are external collaborators; their outcomes are explicit
  inputs (`Except`/`Option` parameters), and the pipeline's observable
  behaviour is an explicit effect trace (rows inserted, messages sent,
  escalations created, status updates).
-/

namespace WhatsappAutomation

/-! ## Data model (backend/src/types, part_011) -/

/-- `ContextMessage` from the types module: one turn of conversation
history.  `text` is kept as `List Char` because the trimmer measures its
length. -/
structure ContextMessage where
  id : String
  timestamp : String
  direction : String
  sender_role : String
  text : List Char
  media_meta : Option String
  linked_doc_ids : List String
deriving DecidableEq

/-- `RetrievalResult`: one enriched retrieval hit. -/
structure RetrievalResult where
  doc_id : String
  title : List Char
  source_url : Option String
  chunk_text : List Char
  chunk_score : ℚ
deriving DecidableEq

/-- `BotAnswer`: a prior bot reply summary.  The context assembler
produces these ordered most-recent-first (`ORDER BY timestamp DESC`). -/
structure BotAnswer where
  message_id : String
  text : List Char
  confidence : Option ℚ
  customer_confirmed : Bool
  timestamp : String
deriving DecidableEq

/-- `ChatContext`: the ephemeral per-request context.  The
`customer_profile`, `session_metadata` and `automation_config` fields are
modelled by their JSON serialization (see file header): the trimmer only
ever takes `JSON.stringify(x).length` of them. -/
structure ChatContext where
  conversation_history : List ContextMessage
  customer_profile : List Char
  session_metadata : List Char
  automation_config : List Char
  retrieval_results : List RetrievalResult
  previous_bot_answers : List BotAnswer
deriving DecidableEq

/-! ## Token Budget Manager (backend/src/services/context/token-budget.ts) -/

/-- `CHARS_PER_TOKEN = 4` from token-budget.ts. -/
def CHARS_PER_TOKEN : Nat := 4

/-- `DEFAULT_MAX_TOKENS = 12000` from token-budget.ts; `index.ts`
constructs the pipeline's `TokenBudgetManager` with this default. -/
def DEFAULT_MAX_TOKENS : Nat := 12000

/-- JS `arr.slice(-n)` for `n > 0`: the last `n` elements (the whole
array when it has fewer than `n` elements). -/
def sliceFromEnd (l : List α) (n : Nat) : List α :=
  l.drop (l.length - n)

/-- `TokenBudgetManager.estimateTokens`: sum of character counts of all
textual fields, each with its fixed overhead, divided by
`CHARS_PER_TOKEN` rounded up (`Math.ceil`). -/
def estimateTokens (context : ChatContext) : Nat :=
  let chars :=
    (context.conversation_history.map (fun m => m.text.length + 50)).sum
    + (context.retrieval_results.map
        (fun r => r.chunk_text.length + r.title.length + 80)).sum
    + context.customer_profile.length
    + context.session_metadata.length
    + context.automation_config.length
    + (context.previous_bot_answers.map (fun a => a.text.length + 50)).sum
  (chars + (CHARS_PER_TOKEN - 1)) / CHARS_PER_TOKEN

/-- `r.chunk_text.slice(0, 500)` applied to one retrieval result in step 5
of `trimContext`. -/
def truncateChunk (r : RetrievalResult) : RetrievalResult :=
  { r with chunk_text := r.chunk_text.take 500 }

/-- `TokenBudgetManager.trimContext`, with the manager's `maxTokens` made
an explicit parameter.  Mirrors the source exactly: early return when the
estimate already fits; otherwise the guarded steps (the source's "step 1"
for session metadata is an explicit no-op), re-estimating after each
mutation:
  step 2: `previous_bot_answers.slice(0, 3)`
  step 3: `conversation_history.slice(-10)`
  step 4: `conversation_history.slice(-5)`
  step 5: truncate each `chunk_text` to 500 characters
and the step-5 result is returned unconditionally. -/
def trimContext (maxTokens : Nat) (context : ChatContext) : ChatContext :=
  if estimateTokens context ≤ maxTokens then
    context
  else
    let t1 := { context with
      previous_bot_answers := context.previous_bot_answers.take 3 }
    if estimateTokens t1 ≤ maxTokens then t1 else
    let t2 := { t1 with
      conversation_history := sliceFromEnd t1.conversation_history 10 }
    if estimateTokens t2 ≤ maxTokens then t2 else
    let t3 := { t2 with
      conversation_history := sliceFromEnd t2.conversation_history 5 }
    if estimateTokens t3 ≤ maxTokens then t3 else
    { t3 with retrieval_results := t3.retrieval_results.map truncateChunk }

/-! ## Retrieval Engine (backend/src/services/rag/retrieval.service.ts) -/

/-- One raw vector-store hit (`VectorSearchResult`), with its
`metadata.doc_id` / `metadata.title` fields (possibly absent). -/
structure VectorSearchResult where
  id : String
  score : ℚ
  text : List Char
  meta_doc_id : Option String
  meta_title : Option String
deriving DecidableEq

/-- A row of the `kb_documents` table used by `enrichResults`. -/
structure DocMeta where
  title : List Char
  source_url : Option String
deriving DecidableEq

/-- JS truthiness of an optional string: `undefined` and `""` are falsy. -/
def strTruthy : Option String → Bool
  | none => false
  | some s => s ≠ ""

/-- JS `a || b` on an optional string value. -/
def jsOrStr (v : Option String) (d : String) : String :=
  match v with
  | some s => if s = "" then d else s
  | none => d

/-- `Math.max(...scores)` over a nonempty score list (head/tail form).
The `[]` case is unreachable in `computeAggregateConfidence`, which
guards on emptiness first. -/
def scoresMax : List ℚ → ℚ
  | [] => 0
  | s :: ss => ss.foldl max s

/-- `scores.reduce((a, b) => a + b, 0) / scores.length`. -/
def scoresAvg (scores : List ℚ) : ℚ :=
  scores.sum / scores.length

/-- `RetrievalService.computeAggregateConfidence`: 0 on an empty hit
list; otherwise `0.6 * maxScore + 0.4 * avgScore`, halved when
`maxScore < threshold`, else capped at 1 by `Math.min`. -/
def computeAggregateConfidence
    (results : List VectorSearchResult) (threshold : ℚ) : ℚ :=
  if results = [] then 0
  else
    let scores := results.map (fun r => r.score)
    let maxScore := scoresMax scores
    let avgScore := scoresAvg scores
    let weighted := maxScore * (6 / 10) + avgScore * (4 / 10)
    if maxScore < threshold then weighted * (1 / 2)
    else min weighted 1

/-- One result of `RetrievalService.enrichResults` when the document
record is missing (or no doc ids were collected): falls back to the
vector-store metadata.  `String(r.metadata.doc_id || r.id)` and
`String(r.metadata.title || 'Unknown')`. -/
def fallbackResult (r : VectorSearchResult) : RetrievalResult :=
  { doc_id := jsOrStr r.meta_doc_id r.id
    title := (jsOrStr r.meta_title "Unknown").toList
    source_url := none
    chunk_text := r.text
    chunk_score := r.score }

/-- `RetrievalService.enrichResults`, with the `kb_documents` table
modelled as a lookup function `docMap`.  JS quirk kept: the map key is
`String(r.metadata.doc_id)`, which is the literal `"undefined"` when the
metadata field is absent. -/
def enrichResults (docMap : String → Option DocMeta)
    (vectorResults : List VectorSearchResult) : List RetrievalResult :=
  if vectorResults = [] then []
  else
    let docIds := (vectorResults.filterMap (fun r => r.meta_doc_id)).filter
      (fun s => s ≠ "")
    if docIds = [] then vectorResults.map fallbackResult
    else
      vectorResults.map (fun r =>
        let key := r.meta_doc_id.getD "undefined"
        match docMap key with
        | some doc =>
          { doc_id := jsOrStr r.meta_doc_id r.id
            title := if doc.title = [] then (jsOrStr r.meta_title "Unknown").toList
                     else doc.title
            source_url := doc.source_url
            chunk_text := r.text
            chunk_score := r.score }
        | none => fallbackResult r)

/-- `RetrievalService.retrieve`, after the embedding and vector-search
collaborators have produced `vectorResults`: filter by the similarity
threshold, enrich the survivors, and score the *unfiltered* hits. -/
def retrieve (docMap : String → Option DocMeta)
    (vectorResults : List VectorSearchResult)
    (similarityThreshold : ℚ) : List RetrievalResult × ℚ :=
  let filtered := vectorResults.filter (fun r => similarityThreshold ≤ r.score)
  (enrichResults docMap filtered,
   computeAggregateConfidence vectorResults similarityThreshold)

/-! ## LLM confidence extraction
(backend/src/services/llm/gemini.adapter.ts and openai.adapter.ts) -/

/-- The apostrophe character, used by string literals of the source. -/
def apos : Char := Char.ofNat 39

/-- Characters matched by the regex class `[\d.]`. -/
def isDigitOrDot (c : Char) : Bool := c.isDigit || c = '.'

/-- Characters matched by `\s` (the whitespace forms that occur in LLM
responses). -/
def isSpaceChar (c : Char) : Bool :=
  c = ' ' || c = '\t' || c = '\n' || c = '\r'

/-- Case-insensitive literal match: if `pat` (already lowercase) is a
prefix of `cs` up to `Char.toLower`, return the remainder. -/
def stripCI : List Char → List Char → Option (List Char)
  | [], rest => some rest
  | _, [] => none
  | p :: ps, c :: cs => if c.toLower = p then stripCI ps cs else none

/-- Attempt the regex `Confidence:\s*([\d.]+)` (case-insensitive) anchored
at the start of `cs`; on success return the captured `[\d.]+` token. -/
def confidenceAt (cs : List Char) : Option (List Char) :=
  match stripCI "confidence:".toList cs with
  | none => none
  | some rest =>
    let tok := (rest.dropWhile isSpaceChar).takeWhile isDigitOrDot
    if tok = [] then none else some tok

/-- `text.match(/Confidence:\s*([\d.]+)/i)`: scan left to right for the
first position where the pattern matches, returning the capture. -/
def findConfidenceToken : List Char → Option (List Char)
  | [] => none
  | c :: cs =>
    match confidenceAt (c :: cs) with
    | some tok => some tok
    | none => findConfidenceToken cs

/-- Numeric value of a digit string (`parseInt`-style accumulation). -/
def digitsVal (ds : List Char) : Nat :=
  ds.foldl (fun n c => n * 10 + (c.toNat - 48)) 0

/-- JS `parseFloat` restricted to strings over `[\d.]` (all the regex can
capture): reads `digits ['.' digits]` and ignores any remainder; `none`
models `NaN` (no digit readable, e.g. `"."`). -/
def parseFloatTok (t : List Char) : Option ℚ :=
  let intPart := t.takeWhile Char.isDigit
  match t.drop intPart.length with
  | '.' :: rest =>
    let fracPart := rest.takeWhile Char.isDigit
    if intPart = [] ∧ fracPart = [] then none
    else some ((digitsVal intPart : ℚ)
      + (digitsVal fracPart : ℚ) / ((10 : ℚ) ^ fracPart.length))
  | _ => if intPart = [] then none else some (digitsVal intPart)

/-- Substring test used by the uncertainty-marker heuristic
(`lowerText.includes(marker)`). -/
def containsSub (hay needle : List Char) : Bool :=
  hay.tails.any (fun t => needle.isPrefixOf t)

/-- The uncertainty markers of `GeminiAdapter.parseConfidence`. -/
def geminiUncertaintyMarkers : List (List Char) :=
  [ "i".toList ++ [apos] ++ "m not sure".toList
  , "i don".toList ++ [apos] ++ "t know".toList
  , "i cannot find".toList
  , "not enough information".toList
  , "unclear".toList
  , "i".toList ++ [apos] ++ "m unable to".toList ]

/-- The uncertainty markers of `OpenAIAdapter.parseConfidence`. -/
def openaiUncertaintyMarkers : List (List Char) :=
  [ "i".toList ++ [apos] ++ "m not sure".toList
  , "i don".toList ++ [apos] ++ "t know".toList
  , "not enough information".toList ]

/-- `parseConfidence` shared by both adapters, parameterized by the
marker list: parse `Confidence:\s*([\d.]+)` and normalize values `> 1`
by dividing by 100; if the regex does not match, fall back to the
keyword heuristic (0.3 on an uncertainty marker, else 0.85).  `none`
models the JS `NaN` outcome (regex matched, `parseFloat` returned
`NaN`). -/
def parseConfidenceWith (markers : List (List Char)) (text : List Char) :
    Option ℚ :=
  match findConfidenceToken text with
  | some tok =>
    (parseFloatTok tok).map (fun val => if 1 < val then val / 100 else val)
  | none =>
    let lowerText := text.map Char.toLower
    if markers.any (fun m => containsSub lowerText m) then some (3 / 10)
    else some (85 / 100)

/-- `GeminiAdapter.parseConfidence`. -/
def geminiParseConfidence (text : List Char) : Option ℚ :=
  parseConfidenceWith geminiUncertaintyMarkers text

/-- `OpenAIAdapter.parseConfidence`. -/
def openaiParseConfidence (text : List Char) : Option ℚ :=
  parseConfidenceWith openaiUncertaintyMarkers text

/-! ## Message Pipeline (backend/src/services/whatsapp/message-pipeline.ts)

The pipeline's observable behaviour is modelled as an effect trace.
External collaborators (DB lookups, the retrieval engine, the context
assembler, the LLM, the transport) are inputs of the run: each awaited
fallible call carries an `Except`/`Option` outcome in the environment.
Storage inserts/updates are recorded in the trace and modelled as
succeeding (no claim under verification concerns their failure).  A `ℚ`
confidence cannot represent the JS `NaN` corner (a `NaN` never takes the
low-confidence branch, since `NaN < threshold` is false). -/

/-- The inbound transport message (`InboundWhatsAppMessage`).  `from` is
a reserved word in Lean, hence `fromPhone`; `mediaJson` is the serialized
media descriptor written by `saveMessage` when `hasMedia`. -/
structure InboundWhatsAppMessage where
  id : String
  fromPhone : String
  body : String
  timestamp : Nat
  hasMedia : Bool
  mediaJson : String
deriving DecidableEq

/-- Recognized organization settings (`OrgSettings`); absent keys are
`none`. -/
structure OrgSettings where
  rag_top_k : Option Nat
  similarity_threshold : Option ℚ
  confidence_threshold : Option ℚ
  max_context_messages : Option Nat
  max_context_days : Option Nat
  fallback_message : Option String
deriving DecidableEq

/-- The organization row consumed by the pipeline. -/
structure Org where
  id : String
  name : String
  settings : OrgSettings
deriving DecidableEq

/-- The conversation row returned by `getOrCreateConversation`. -/
structure Conversation where
  id : String
  status : String
  session_id : Option String
deriving DecidableEq

/-- The LLM collaborator's parsed response (`LLMResponse`). -/
structure LLMResponse where
  content : String
  confidence : ℚ
  citations : List String
  usage_total_tokens : Nat
deriving DecidableEq

/-- A row of the `messages` table as inserted by `saveMessage` /
`saveBotMessage`. -/
structure MessageRow where
  conversation_id : String
  org_id : String
  direction : String
  sender_role : String
  text : String
  llm_confidence : Option ℚ
  linked_doc_ids : Option (List String)
  media_meta : Option String
deriving DecidableEq

/-- A row of the `escalations` table as inserted by
`EscalationService.createEscalation` (status is always `'pending'` in the
INSERT). -/
structure EscalationRow where
  org_id : String
  conversation_id : String
  customer_id : String
  reason : String
  status : String
deriving DecidableEq

/-- The observable effect trace of one `handleInboundMessage` run. -/
structure Effects where
  savedMessages : List MessageRow
  retrievalCalls : List (String × String × Nat × ℚ)
  llmCalls : List (String × String × ChatContext)
  sentMessages : List (String × String)
  escalationInserts : List EscalationRow
  conversationUpdates : List (String × String)
deriving DecidableEq

/-- The empty trace. -/
def emptyEffects : Effects :=
  { savedMessages := [], retrievalCalls := [], llmCalls := []
    sentMessages := [], escalationInserts := [], conversationUpdates := [] }

/-- JS `a || b` on an optional number (`0` is falsy). -/
def jsOrNum (v : Option ℚ) (d : ℚ) : ℚ :=
  match v with
  | some x => if x = 0 then d else x
  | none => d

/-- JS `a || b` on an optional natural (`0` is falsy). -/
def jsOrNat (v : Option Nat) (d : Nat) : Nat :=
  match v with
  | some x => if x = 0 then d else x
  | none => d

/-- The hard-coded default fallback text of `handleInboundMessage`
step 9. -/
def defaultFallbackMessage : String :=
  String.mk ("I don".toList ++ [apos]
    ++ "t know based on our documents. Would you like to connect to a human?".toList)

/-- `saveMessage(conversationId, orgId, msg, 'inbound', 'customer')`. -/
def mkInboundRow (conversationId orgId : String)
    (msg : InboundWhatsAppMessage) : MessageRow :=
  { conversation_id := conversationId, org_id := orgId
    direction := "inbound", sender_role := "customer", text := msg.body
    llm_confidence := none, linked_doc_ids := none
    media_meta := if msg.hasMedia then some msg.mediaJson else none }

/-- `saveBotMessage(conversationId, orgId, text, confidence,
linkedDocIds)`. -/
def mkBotRow (conversationId orgId text : String) (confidence : ℚ)
    (linkedDocIds : List String) : MessageRow :=
  { conversation_id := conversationId, org_id := orgId
    direction := "outbound", sender_role := "bot", text := text
    llm_confidence := some confidence, linked_doc_ids := some linkedDocIds
    media_meta := none }

/-- First match of `/\[(\d+)\]/` in a citation string: scan for a `[`,
require at least one digit then `]`; on a failed attempt resume scanning
after the `[`. -/
def findBracketNum : List Char → Option Nat
  | [] => none
  | c :: cs =>
    if c = '[' then
      let ds := cs.takeWhile Char.isDigit
      match ds, cs.drop ds.length with
      | _ :: _, ']' :: _ => some (digitsVal ds)
      | _, _ => findBracketNum cs
    else findBracketNum cs

/-- First-occurrence-order deduplication, the order produced by JS
`[...new Set(xs)]`. -/
def dedupFirst [DecidableEq α] : List α → List α
  | [] => []
  | a :: l => a :: dedupFirst (l.filter (fun b => b ≠ a))
termination_by l => l.length
decreasing_by
  simp only [List.length_cons]
  exact Nat.lt_succ_of_le (List.length_filter_le _ _)

/-- `MessagePipeline.extractLinkedDocIds`: map each citation's bracketed
1-based index to `retrievalResults[idx - 1].doc_id` when in range, then
deduplicate preserving first occurrence. -/
def extractLinkedDocIds (citations : List String)
    (retrievalResults : List RetrievalResult) : List String :=
  dedupFirst (citations.filterMap (fun citation =>
    match findBracketNum citation.toList with
    | none => none
    | some n =>
      if 1 ≤ n then (retrievalResults.get? (n - 1)).map (fun r => r.doc_id)
      else none))

/-- The environment of one `handleInboundMessage(orgId, msg)` run: the
resolved rows and each collaborator call's outcome.  `renderNum` is the
JS number-to-string conversion used by the template literal in the
escalation reason. -/
structure PipelineEnv where
  orgId : String
  msg : InboundWhatsAppMessage
  org : Option Org
  customerId : String
  conversation : Conversation
  retrievalOutcome : Except Unit (List RetrievalResult × ℚ)
  assembleOutcome : Except Unit ChatContext
  llmOutcome : Except Unit LLMResponse
  transportPresent : Bool
  sendOk : Bool
  maxTokens : Nat
  configRagTopK : Nat
  configRagSimilarityThreshold : ℚ
  configLlmConfidenceThreshold : ℚ
  renderNum : ℚ → String

/-- `EscalationService.createEscalation`: insert an escalation row with
status `'pending'`, then `UPDATE conversations SET status = 'escalated'`
on the parent conversation. -/
def createEscalation (e : Effects) (orgId conversationId customerId
    reason : String) : Effects :=
  { e with
    escalationInserts := e.escalationInserts
      ++ [{ org_id := orgId, conversation_id := conversationId
            customer_id := customerId, reason := reason
            status := "pending" }]
    conversationUpdates := e.conversationUpdates
      ++ [(conversationId, "escalated")] }

/-- `MessagePipeline.handleLowConfidence`: persist the fallback as a bot
message with hard-coded confidence `0.1` and empty linked doc ids, send
it when a transport is registered (a send failure propagates, skipping
escalation creation), then create the escalation. -/
def handleLowConfidence (env : PipelineEnv) (e : Effects)
    (conversationId customerId fallbackMessage reason : String) : Effects :=
  let e1 := { e with savedMessages := e.savedMessages
    ++ [mkBotRow conversationId env.orgId fallbackMessage (1 / 10) []] }
  if env.transportPresent then
    let e2 := { e1 with sentMessages := e1.sentMessages
      ++ [(env.msg.fromPhone, fallbackMessage)] }
    if env.sendOk then
      createEscalation e2 env.orgId conversationId customerId reason
    else e2
  else
    createEscalation e1 env.orgId conversationId customerId reason

/-- `MessagePipeline.handleInboundMessage`: the full control flow of the
orchestrator, producing the run's effect trace.  Any thrown error
(modelled by an `Except.error` collaborator outcome) lands in the
top-level catch, which only logs: the trace accumulated so far is the
run's final trace. -/
def handleInboundMessage (env : PipelineEnv) : Effects :=
  match env.org with
  | none => emptyEffects
  | some org =>
    let settings := org.settings
    let conv := env.conversation
    if conv.status = "escalated" then
      { emptyEffects with
        savedMessages := [mkInboundRow conv.id env.orgId env.msg] }
    else
      let e1 : Effects := { emptyEffects with
        savedMessages := [mkInboundRow conv.id env.orgId env.msg] }
      let e2 : Effects := { e1 with retrievalCalls :=
        [(env.orgId, env.msg.body,
          jsOrNat settings.rag_top_k env.configRagTopK,
          jsOrNum settings.similarity_threshold
            env.configRagSimilarityThreshold)] }
      match env.retrievalOutcome with
      | .error _ => e2
      | .ok (retrievalResults, _aggregateConfidence) =>
        match env.assembleOutcome with
        | .error _ => e2
        | .ok assembled =>
          let context := trimContext env.maxTokens assembled
          let e3 : Effects := { e2 with llmCalls :=
            [(org.name, env.msg.body, context)] }
          match env.llmOutcome with
          | .error _ => e3
          | .ok llmResponse =>
            let confidenceThreshold := jsOrNum settings.confidence_threshold
              env.configLlmConfidenceThreshold
            if llmResponse.confidence < confidenceThreshold then
              handleLowConfidence env e3 conv.id env.customerId
                (jsOrStr settings.fallback_message defaultFallbackMessage)
                ("LLM confidence too low: "
                  ++ env.renderNum llmResponse.confidence)
            else
              let linkedDocIds := extractLinkedDocIds llmResponse.citations
                retrievalResults
              let e4 : Effects := { e3 with savedMessages := e3.savedMessages
                ++ [mkBotRow conv.id env.orgId llmResponse.content
                      llmResponse.confidence linkedDocIds] }
              if env.transportPresent then
                { e4 with sentMessages := e4.sentMessages
                  ++ [(env.msg.fromPhone, llmResponse.content)] }
              else e4

/-! ## Context Assembler (backend/src/services/context/context-assembler.ts)

`assemble` launches its five sub-fetches together and combines them with
`Promise.all`.  Each sub-fetch is a DB-backed collaborator call; its
outcome (value or rejection) is an explicit input.  Organization lookup
is *not* one of the five — it happens in pipeline step 1, before
`assemble` is ever called. -/

/-- The five sub-fetch outcomes feeding `Promise.all` in
`ContextAssembler.assemble`, in source order. -/
structure AssembleEnv where
  historyFetch : Except Unit (List ContextMessage)
  profileFetch : Except Unit (List Char)
  sessionFetch : Except Unit (List Char)
  automationFetch : Except Unit (List Char)
  botAnswersFetch : Except Unit (List BotAnswer)

/-- `Promise.all` over the five sub-fetches: succeeds with the tuple when
all succeed, rejects as soon as any of them rejects. -/
def promiseAll5 (env : AssembleEnv) :
    Except Unit (List ContextMessage × List Char × List Char × List Char
      × List BotAnswer) :=
  match env.historyFetch with
  | .error e => .error e
  | .ok h =>
    match env.profileFetch with
    | .error e => .error e
    | .ok p =>
      match env.sessionFetch with
      | .error e => .error e
      | .ok s =>
        match env.automationFetch with
        | .error e => .error e
        | .ok a =>
          match env.botAnswersFetch with
          | .error e => .error e
          | .ok b => .ok (h, p, s, a, b)

/-- `ContextAssembler.assemble`: `Promise.all` the five sub-fetches and
build the `ChatContext`, passing the externally supplied retrieval
results through untouched. -/
def assemble (retrievalResults : List RetrievalResult) (env : AssembleEnv) :
    Except Unit ChatContext :=
  match promiseAll5 env with
  | .error e => .error e
  | .ok (h, p, s, a, b) =>
    .ok { conversation_history := h, customer_profile := p
          session_metadata := s, automation_config := a
          retrieval_results := retrievalResults
          previous_bot_answers := b }

/-! ## Spec-side trim cascade (for the refinement claim about §4.3)

A second definition of trimming, written from the specification's words
(§4.3): a strict priority cascade of four steps, re-estimating after each
step and stopping as soon as the budget is met; the step-4 output is
returned as a best-effort if the budget still cannot be met.  Data
orientation (from §3 and the assembler): `conversation_history` is
chronological ascending, so its most recent entries are a final segment;
`previous_bot_answers` are ordered most-recent-first (`ORDER BY
timestamp DESC`), so its most recent entries are an initial segment. -/

/-- Spec step 1: cap `previous_bot_answers` to the 3 most recent (the
list is ordered most-recent-first). -/
def specCapBotAnswers (c : ChatContext) : ChatContext :=
  { c with previous_bot_answers := c.previous_bot_answers.take 3 }

/-- Spec step 2: cap `conversation_history` to the 10 most recent (the
list is chronological ascending). -/
def specCapHistory10 (c : ChatContext) : ChatContext :=
  { c with conversation_history := sliceFromEnd c.conversation_history 10 }

/-- Spec step 3: cap `conversation_history` further to the 5 most
recent. -/
def specCapHistory5 (c : ChatContext) : ChatContext :=
  { c with conversation_history := sliceFromEnd c.conversation_history 5 }

/-- Spec step 4: truncate every retrieval result's `chunk_text` to 500
characters. -/
def specTruncateChunks (c : ChatContext) : ChatContext :=
  { c with retrieval_results := c.retrieval_results.map truncateChunk }

/-- The cascade combinator of §4.3: before each remaining step,
re-estimate and stop as soon as the estimate meets the budget; when the
steps are exhausted, return the current context as a best-effort. -/
def specCascade (maxTokens : Nat) :
    List (ChatContext → ChatContext) → ChatContext → ChatContext
  | [], c => c
  | step :: steps, c =>
    if estimateTokens c ≤ maxTokens then c
    else specCascade maxTokens steps (step c)

/-- The §4.3 trimming algorithm as specified: the four-step priority
cascade. -/
def trimSpec (maxTokens : Nat) (c : ChatContext) : ChatContext :=
  specCascade maxTokens
    [specCapBotAnswers, specCapHistory10, specCapHistory5,
      specTruncateChunks] c

/-! ## Auxiliary definitions for the theorems -/

/-- Clamping to the unit interval, as in "clamp to [0,1]" (§4.2). -/
def clamp01 (x : ℚ) : ℚ := max 0 (min x 1)

/-- The fully-trimmed form of a context: all four cascade steps applied.
`trimContext` returns exactly this when no intermediate estimate meets
the budget. -/
def fullTrim (c : ChatContext) : ChatContext :=
  specTruncateChunks (specCapHistory5 (specCapHistory10 (specCapBotAnswers c)))

/-! ## Concrete sample inputs (used by witnesses and counterexamples) -/

/-- A sample inbound message. -/
def sampleMsg : InboundWhatsAppMessage :=
  { id := "m1", fromPhone := "919876543210@c.us"
    body := "What is the return policy?", timestamp := 1700000000
    hasMedia := false, mediaJson := "" }

/-- Sample organization settings with every recognized key absent. -/
def sampleSettings : OrgSettings :=
  { rag_top_k := none, similarity_threshold := none
    confidence_threshold := none, max_context_messages := none
    max_context_days := none, fallback_message := none }

/-- A sample organization row. -/
def sampleOrg : Org := { id := "org1", name := "DemoCorp", settings := sampleSettings }

/-- A sample active conversation. -/
def sampleConvActive : Conversation :=
  { id := "conv1", status := "active", session_id := some "sess1" }

/-- A sample escalated conversation. -/
def sampleConvEscalated : Conversation :=
  { id := "conv1", status := "escalated", session_id := some "sess1" }

/-- The empty chat context. -/
def emptyContext : ChatContext :=
  { conversation_history := [], customer_profile := []
    session_metadata := [], automation_config := []
    retrieval_results := [], previous_bot_answers := [] }

/-- A sample retrieval result. -/
def sampleRetrievalResult : RetrievalResult :=
  { doc_id := "doc-returns", title := "Return Policy".toList
    source_url := none
    chunk_text := "Returns are accepted within 30 days of purchase.".toList
    chunk_score := mkRat 92 100 }

/-- A context holding a single retrieval result. -/
def ctxOneResult : ChatContext :=
  { emptyContext with retrieval_results := [sampleRetrievalResult] }

/-- A sample low-confidence LLM response. -/
def sampleResp : LLMResponse :=
  { content := "I cannot find that in the documents.", confidence := mkRat 3 10
    citations := [], usage_total_tokens := 100 }

/-- A fixed number renderer standing for the JS number-to-string
conversion in the run's template literal. -/
def renderNumConst : ℚ → String := fun _ => "0.3"

/-- A pipeline environment for a low-confidence run: organization found,
active conversation, retrieval / assembly / LLM all succeed, transport
registered and healthy. -/
def envLowConf : PipelineEnv :=
  { orgId := "org1", msg := sampleMsg, org := some sampleOrg
    customerId := "cust1", conversation := sampleConvActive
    retrievalOutcome := .ok ([], 0)
    assembleOutcome := .ok emptyContext
    llmOutcome := .ok sampleResp
    transportPresent := true, sendOk := true
    maxTokens := DEFAULT_MAX_TOKENS
    configRagTopK := 4, configRagSimilarityThreshold := mkRat 3 4
    configLlmConfidenceThreshold := mkRat 7 10
    renderNum := renderNumConst }

/-- The same run with the conversation already escalated. -/
def envEscalated : PipelineEnv := { envLowConf with conversation := sampleConvEscalated }

/-- The same run with the retrieval engine throwing. -/
def envRetrievalFail : PipelineEnv :=
  { envLowConf with retrievalOutcome := .error () }

/-- The same run with organization lookup failing. -/
def envOrgNone : PipelineEnv := { envLowConf with org := none }

/-- A sample raw vector-store hit. -/
def sampleVSR : VectorSearchResult :=
  { id := "v1", score := mkRat 8 10, text := "Return within 30 days.".toList
    meta_doc_id := some "doc-returns", meta_title := some "Return Policy" }

/-- An empty `kb_documents` table. -/
def docMapEmpty : String → Option DocMeta := fun _ => none

/-- Assembler sub-fetch outcomes with all five succeeding. -/
def assembleEnvAllOk : AssembleEnv :=
  { historyFetch := .ok [], profileFetch := .ok []
    sessionFetch := .ok [], automationFetch := .ok []
    botAnswersFetch := .ok [] }

/-- Assembler sub-fetch outcomes where only the customer-profile fetch
fails. -/
def assembleEnvProfileFail : AssembleEnv :=
  { assembleEnvAllOk with profileFetch := .error () }

/-! ## Helper lemmas: the trimmer -/

theorem sliceFromEnd_length_le (l : List α) (n : Nat) :
    (sliceFromEnd l n).length ≤ n := by
  simp only [sliceFromEnd, List.length_drop]
  omega

theorem sliceFromEnd_of_le (l : List α) (n : Nat) (h : l.length ≤ n) :
    sliceFromEnd l n = l := by
  simp [sliceFromEnd, Nat.sub_eq_zero_of_le h]

theorem sliceFromEnd_suffix (l : List α) (n : Nat) :
    sliceFromEnd l n <:+ l :=
  ⟨l.take (l.length - n), List.take_append_drop _ _⟩

theorem truncateChunk_idem (r : RetrievalResult) :
    truncateChunk (truncateChunk r) = truncateChunk r := by
  simp [truncateChunk, List.take_take]

theorem truncateChunk_comp :
    truncateChunk ∘ truncateChunk = truncateChunk :=
  funext truncateChunk_idem

/-- The source's `trimContext` and the spec-side cascade are
definitionally the same algorithm. -/
theorem trimContext_eq_spec (B : Nat) (c : ChatContext) :
    trimContext B c = trimSpec B c := rfl

theorem trim_fits (B : Nat) (c : ChatContext)
    (h : estimateTokens c ≤ B) : trimContext B c = c := by
  rw [trimContext_eq_spec]
  unfold trimSpec specCascade
  rw [if_pos h]

/-- A context on which every cascade step is the identity is a fixed
point of `trimContext`. -/
theorem trim_stable (B : Nat) (c : ChatContext)
    (hb : specCapBotAnswers c = c)
    (h10 : specCapHistory10 c = c)
    (h5 : specCapHistory5 c = c)
    (hrr : specTruncateChunks c = c) :
    trimContext B c = c := by
  rw [trimContext_eq_spec]
  unfold trimSpec
  simp only [specCascade, hb, h10, h5, hrr]
  split_ifs <;> rfl

/-- When neither the input nor the output meets the budget, `trimContext`
has applied all four steps. -/
theorem trim_overflow (B : Nat) (c : ChatContext)
    (h0 : ¬ estimateTokens c ≤ B)
    (h4 : ¬ estimateTokens (trimContext B c) ≤ B) :
    trimContext B c = fullTrim c := by
  rw [trimContext_eq_spec] at *
  unfold trimSpec at *
  simp only [specCascade] at h4 ⊢
  rw [if_neg h0] at h4 ⊢
  split_ifs at h4 ⊢ with h1 h2 h3
  · exact absurd h4 (by simp [h1])
  · exact absurd h4 (by simp [h2])
  · exact absurd h4 (by simp [h3])
  · rfl

theorem fullTrim_stable_answers (c : ChatContext) :
    specCapBotAnswers (fullTrim c) = fullTrim c := by
  simp [fullTrim, specTruncateChunks, specCapHistory5, specCapHistory10,
    specCapBotAnswers, List.take_take]

theorem fullTrim_stable_history10 (c : ChatContext) :
    specCapHistory10 (fullTrim c) = fullTrim c := by
  simp only [fullTrim, specTruncateChunks, specCapHistory5,
    specCapHistory10, specCapBotAnswers]
  congr 1
  exact sliceFromEnd_of_le _ _
    (le_trans (sliceFromEnd_length_le _ _) (by norm_num))

theorem fullTrim_stable_history5 (c : ChatContext) :
    specCapHistory5 (fullTrim c) = fullTrim c := by
  simp only [fullTrim, specTruncateChunks, specCapHistory5,
    specCapHistory10, specCapBotAnswers]
  congr 1
  exact sliceFromEnd_of_le _ _ (sliceFromEnd_length_le _ _)

theorem fullTrim_stable_chunks (c : ChatContext) :
    specTruncateChunks (fullTrim c) = fullTrim c := by
  simp only [fullTrim, specTruncateChunks, specCapHistory5,
    specCapHistory10, specCapBotAnswers]
  congr 1
  rw [List.map_map, truncateChunk_comp]

/-- `trimContext` returns one of exactly five shapes: the input, or the
input after 1, 2, 3 or all 4 cascade steps. -/
theorem trim_cases (B : Nat) (c : ChatContext) :
    trimContext B c = c
    ∨ trimContext B c = specCapBotAnswers c
    ∨ trimContext B c = specCapHistory10 (specCapBotAnswers c)
    ∨ trimContext B c
        = specCapHistory5 (specCapHistory10 (specCapBotAnswers c))
    ∨ trimContext B c = fullTrim c := by
  rw [trimContext_eq_spec]
  unfold trimSpec fullTrim
  simp only [specCascade]
  split_ifs <;> tauto

/-! ## Claim theorems: the trimmer -/

/-- C3: trimming is idempotent — `trim(trim(ctx, B), B) = trim(ctx, B)`
for every context and budget; and when the token estimate is already at
or below the budget, `trim` returns the context unchanged. -/
theorem trim_idempotent (B : Nat) (c : ChatContext) :
    trimContext B (trimContext B c) = trimContext B c
    ∧ (estimateTokens c ≤ B → trimContext B c = c) := by
  constructor
  · by_cases h0 : estimateTokens c ≤ B
    · rw [trim_fits B c h0]
      exact trim_fits B c h0
    · by_cases h4 : estimateTokens (trimContext B c) ≤ B
      · exact trim_fits B _ h4
      · rw [trim_overflow B c h0 h4]
        exact trim_stable B _ (fullTrim_stable_answers c)
          (fullTrim_stable_history10 c) (fullTrim_stable_history5 c)
          (fullTrim_stable_chunks c)
  · exact trim_fits B c

/-- C3 witness: on the empty context and the default budget, both
conjuncts hold at a concrete input. -/
theorem trim_idempotent_witness :
    trimContext DEFAULT_MAX_TOKENS emptyContext = emptyContext :=
  (trim_idempotent DEFAULT_MAX_TOKENS emptyContext).2 (by decide)

/-- C4: trimming never removes retrieval results — their number is
preserved, every output chunk text is a prefix of the corresponding
input chunk text, and for any positive budget a nonempty pre-trim result
list stays nonempty. -/
theorem trim_preserves_retrieval (B : Nat) (c : ChatContext) :
    (trimContext B c).retrieval_results.length
        = c.retrieval_results.length
    ∧ List.Forall₂ (fun orig res => res.chunk_text <+: orig.chunk_text)
        c.retrieval_results (trimContext B c).retrieval_results
    ∧ (0 < B → c.retrieval_results ≠ []
        → (trimContext B c).retrieval_results ≠ []) := by
  have hsame : ∀ rs : List RetrievalResult,
      List.Forall₂ (fun orig res => res.chunk_text <+: orig.chunk_text)
        rs rs :=
    fun rs => List.forall₂_same.mpr
      (fun x _ => ⟨[], List.append_nil _⟩)
  have hmap : ∀ rs : List RetrievalResult,
      List.Forall₂ (fun orig res => res.chunk_text <+: orig.chunk_text)
        rs (rs.map truncateChunk) :=
    fun rs => List.forall₂_map_right_iff.mpr
      (List.forall₂_same.mpr (fun x _ =>
        ⟨x.chunk_text.drop 500, List.take_append_drop _ _⟩))
  rcases trim_cases B c with h | h | h | h | h <;> rw [h]
  · exact ⟨rfl, hsame _, fun _ hne => hne⟩
  · exact ⟨rfl, hsame _, fun _ hne => hne⟩
  · exact ⟨rfl, hsame _, fun _ hne => hne⟩
  · exact ⟨rfl, hsame _, fun _ hne => hne⟩
  · refine ⟨List.length_map _ _, hmap _, fun _ hne => ?_⟩
    simp only [fullTrim, specTruncateChunks, specCapHistory5,
      specCapHistory10, specCapBotAnswers, ne_eq, List.map_eq_nil_iff]
    exact hne

/-- C4 witness: at budget 1 and a context holding one retrieval result,
the result list stays nonempty. -/
theorem trim_preserves_retrieval_witness :
    (trimContext 1 ctxOneResult).retrieval_results ≠ [] :=
  (trim_preserves_retrieval 1 ctxOneResult).2.2 (by decide) (by decide)

/-- C5: on a context over budget, `trimContext` is exactly the §4.3
priority cascade — cap `previous_bot_answers` to the 3 most recent, cap
`conversation_history` to the 10 then to the 5 most recent, truncate
every retrieval chunk to 500 characters — re-estimating after each step,
stopping as soon as the budget is met, and returning the step-4 result
as a best-effort otherwise. -/
theorem trim_matches_spec_cascade (B : Nat) (c : ChatContext) :
    trimContext B c = trimSpec B c := rfl

/-- C10: trimming has no effect outside the three trimmed fields — the
profile, session-metadata and automation-config components are returned
identically, the output conversation history is a suffix (the most
recent entries) of the input history, and the retrieval results differ
at most in their `chunk_text`: list structure and each result's
`doc_id`, `title`, `source_url` and `chunk_score` are preserved
pairwise. -/
theorem trim_frame_effects (B : Nat) (c : ChatContext) :
    (trimContext B c).customer_profile = c.customer_profile
    ∧ (trimContext B c).session_metadata = c.session_metadata
    ∧ (trimContext B c).automation_config = c.automation_config
    ∧ (trimContext B c).conversation_history
        <:+ c.conversation_history
    ∧ List.Forall₂ (fun orig res =>
        res.doc_id = orig.doc_id ∧ res.title = orig.title
        ∧ res.source_url = orig.source_url
        ∧ res.chunk_score = orig.chunk_score)
        c.retrieval_results (trimContext B c).retrieval_results := by
  have hsame : ∀ rs : List RetrievalResult,
      List.Forall₂ (fun orig res =>
        res.doc_id = orig.doc_id ∧ res.title = orig.title
        ∧ res.source_url = orig.source_url
        ∧ res.chunk_score = orig.chunk_score) rs rs :=
    fun rs => List.forall₂_same.mpr (fun x _ => ⟨rfl, rfl, rfl, rfl⟩)
  have hmap : ∀ rs : List RetrievalResult,
      List.Forall₂ (fun orig res =>
        res.doc_id = orig.doc_id ∧ res.title = orig.title
        ∧ res.source_url = orig.source_url
        ∧ res.chunk_score = orig.chunk_score)
        rs (rs.map truncateChunk) :=
    fun rs => List.forall₂_map_right_iff.mpr
      (List.forall₂_same.mpr (fun x _ => ⟨rfl, rfl, rfl, rfl⟩))
  rcases trim_cases B c with h | h | h | h | h <;> rw [h]
  · exact ⟨rfl, rfl, rfl, List.suffix_refl _, hsame _⟩
  · exact ⟨rfl, rfl, rfl, List.suffix_refl _, hsame _⟩
  · exact ⟨rfl, rfl, rfl, sliceFromEnd_suffix _ _, hsame _⟩
  · exact ⟨rfl, rfl, rfl,
      (sliceFromEnd_suffix _ _).trans (sliceFromEnd_suffix _ _), hsame _⟩
  · exact ⟨rfl, rfl, rfl,
      (sliceFromEnd_suffix _ _).trans (sliceFromEnd_suffix _ _), hmap _⟩

/-! ## Helper lemmas: retrieval scoring -/

theorem foldl_max_le {bound : ℚ} :
    ∀ (ss : List ℚ) (s : ℚ), s ≤ bound → (∀ x ∈ ss, x ≤ bound) →
      ss.foldl max s ≤ bound := by
  intro ss
  induction ss with
  | nil => intro s hs _; simpa using hs
  | cons a as ih =>
    intro s hs h
    simp only [List.foldl_cons]
    exact ih (max s a) (max_le hs (h a (by simp)))
      (fun x hx => h x (by simp [hx]))

theorem le_foldl_max :
    ∀ (ss : List ℚ) (s : ℚ), s ≤ ss.foldl max s := by
  intro ss
  induction ss with
  | nil => intro s; simp
  | cons a as ih =>
    intro s
    simp only [List.foldl_cons]
    exact le_trans (le_max_left s a) (ih (max s a))

theorem scoresMax_bounds (s : ℚ) (ss : List ℚ)
    (h : ∀ x ∈ s :: ss, 0 ≤ x ∧ x ≤ 1) :
    0 ≤ scoresMax (s :: ss) ∧ scoresMax (s :: ss) ≤ 1 := by
  constructor
  · exact le_trans (h s (by simp)).1 (le_foldl_max ss s)
  · exact foldl_max_le ss s (h s (by simp)).2
      (fun x hx => (h x (by simp [hx])).2)

theorem scoresAvg_bounds (scores : List ℚ) (hne : scores ≠ [])
    (h : ∀ x ∈ scores, 0 ≤ x ∧ x ≤ 1) :
    0 ≤ scoresAvg scores ∧ scoresAvg scores ≤ 1 := by
  have hlen : (0 : ℚ) < scores.length := by
    exact_mod_cast List.length_pos.mpr hne
  constructor
  · exact div_nonneg (List.sum_nonneg (fun x hx => (h x hx).1)) (le_of_lt hlen)
  · rw [scoresAvg, div_le_one hlen]
    have := List.sum_le_card_nsmul scores 1 (fun x hx => (h x hx).2)
    simpa using this

/-- The weighted score `0.6 * max + 0.4 * avg` lies in `[0, 1]` when both
components do. -/
theorem weighted_bounds {m a : ℚ} (hm : 0 ≤ m ∧ m ≤ 1)
    (ha : 0 ≤ a ∧ a ≤ 1) :
    0 ≤ m * (6 / 10) + a * (4 / 10)
    ∧ m * (6 / 10) + a * (4 / 10) ≤ 1 := by
  obtain ⟨hm0, hm1⟩ := hm
  obtain ⟨ha0, ha1⟩ := ha
  constructor <;> nlinarith

/-- Both branches of the aggregate-confidence return are in `[0, 1]`
when the weighted score is. -/
theorem branch_in_unit {w : ℚ} (hw0 : 0 ≤ w) (hw1 : w ≤ 1)
    (cond : Prop) [Decidable cond] :
    0 ≤ (if cond then w * (1 / 2) else min w 1)
    ∧ (if cond then w * (1 / 2) else min w 1) ≤ 1 := by
  split_ifs
  · constructor <;> nlinarith
  · exact ⟨le_min hw0 (by norm_num), min_le_right _ _⟩

/-- The code's return value equals the clamped penalized weighted score
when the weighted score is in `[0, 1]`. -/
theorem branch_eq_clamp {w : ℚ} (hw0 : 0 ≤ w) (hw1 : w ≤ 1)
    (cond : Prop) [Decidable cond] :
    (if cond then w * (1 / 2) else min w 1)
      = clamp01 (if cond then w * (1 / 2) else w) := by
  split_ifs
  · have h1 : w * (1 / 2) ≤ 1 := by nlinarith
    have h2 : 0 ≤ w * (1 / 2) := by nlinarith
    simp only [clamp01]
    rw [min_eq_left h1, max_eq_right h2]
  · simp only [clamp01]
    exact (max_eq_right (le_min hw0 (by norm_num))).symm

theorem aggregate_in_unit (results : List VectorSearchResult)
    (threshold : ℚ)
    (hb : ∀ r ∈ results, 0 ≤ r.score ∧ r.score ≤ 1) :
    0 ≤ computeAggregateConfidence results threshold
    ∧ computeAggregateConfidence results threshold ≤ 1 := by
  rcases results with _ | ⟨r, rs⟩
  · simp [computeAggregateConfidence]
  · have hscores : ∀ x ∈ (r :: rs).map (fun v => v.score),
        0 ≤ x ∧ x ≤ 1 := by
      intro x hx
      simp only [List.mem_map] at hx
      obtain ⟨v, hv, rfl⟩ := hx
      exact hb v hv
    have hmax := scoresMax_bounds r.score (rs.map (fun v => v.score))
      (by simpa using hscores)
    have havg := scoresAvg_bounds (r.score :: rs.map (fun v => v.score))
      (by simp) (by simpa using hscores)
    have hw := weighted_bounds hmax havg
    unfold computeAggregateConfidence
    simp only [if_neg (by simp : ¬(r :: rs = [])), List.map_cons]
    exact branch_in_unit hw.1 hw.2 _

/-! ## Claim theorems: retrieval scoring -/

/-- C6: for a nonempty candidate list with scores in [0,1], the
aggregate confidence returned by `retrieve` equals the weighted score
`0.6 * max + 0.4 * avg` over the *unfiltered* scores, halved when the
best score is strictly below the similarity threshold, clamped to
[0,1]; and with zero candidates `retrieve` returns an empty result list
with aggregate confidence exactly 0 (a valid outcome, not an error). -/
theorem aggregate_confidence_formula :
    (∀ (docMap : String → Option DocMeta)
        (vectorResults : List VectorSearchResult) (threshold : ℚ),
      vectorResults ≠ [] →
      (∀ r ∈ vectorResults, 0 ≤ r.score ∧ r.score ≤ 1) →
      (retrieve docMap vectorResults threshold).2 =
        clamp01
          (if scoresMax (vectorResults.map (fun r => r.score)) < threshold
           then (scoresMax (vectorResults.map (fun r => r.score)) * (6 / 10)
             + scoresAvg (vectorResults.map (fun r => r.score)) * (4 / 10))
             * (1 / 2)
           else scoresMax (vectorResults.map (fun r => r.score)) * (6 / 10)
             + scoresAvg (vectorResults.map (fun r => r.score)) * (4 / 10)))
    ∧ (∀ (docMap : String → Option DocMeta) (threshold : ℚ),
        retrieve docMap [] threshold = ([], 0)) := by
  constructor
  · intro docMap vectorResults threshold hne hb
    rcases vectorResults with _ | ⟨r, rs⟩
    · exact absurd rfl hne
    · have hscores : ∀ x ∈ (r :: rs).map (fun v => v.score),
          0 ≤ x ∧ x ≤ 1 := by
        intro x hx
        simp only [List.mem_map] at hx
        obtain ⟨v, hv, rfl⟩ := hx
        exact hb v hv
      have hmax := scoresMax_bounds r.score (rs.map (fun v => v.score))
        (by simpa using hscores)
      have havg := scoresAvg_bounds (r.score :: rs.map (fun v => v.score))
        (by simp) (by simpa using hscores)
      have hw := weighted_bounds hmax havg
      show computeAggregateConfidence (r :: rs) threshold = _
      unfold computeAggregateConfidence
      simp only [if_neg (by simp : ¬(r :: rs = [])), List.map_cons]
      exact branch_eq_clamp hw.1 hw.2 _
  · intro docMap threshold
    rfl

/-- C6 witness: at one concrete above-threshold hit the formula
instantiates. -/
theorem aggregate_confidence_formula_witness :
    (retrieve docMapEmpty [sampleVSR] (mkRat 3 4)).2 =
      clamp01
        (if scoresMax ([sampleVSR].map (fun r => r.score)) < mkRat 3 4
         then (scoresMax ([sampleVSR].map (fun r => r.score)) * (6 / 10)
           + scoresAvg ([sampleVSR].map (fun r => r.score)) * (4 / 10))
           * (1 / 2)
         else scoresMax ([sampleVSR].map (fun r => r.score)) * (6 / 10)
           + scoresAvg ([sampleVSR].map (fun r => r.score)) * (4 / 10)) :=
  aggregate_confidence_formula.1 docMapEmpty [sampleVSR] (mkRat 3 4)
    (by decide) (by decide)

/-! ## Helper lemmas: confidence parsing -/

theorem parseFloatTok_nonneg (t : List Char) (v : ℚ)
    (h : parseFloatTok t = some v) : 0 ≤ v := by
  simp only [parseFloatTok] at h
  split at h
  · split_ifs at h
    simp only [Option.some.injEq] at h
    subst h
    positivity
  · split_ifs at h
    simp only [Option.some.injEq] at h
    subst h
    exact Nat.cast_nonneg _

/-! ## Claim theorems: confidence bounds (C7) -/

/-- C7 counterexample: on the response text "Confidence: 200" the
adapters' confidence extraction returns 2, which is outside [0, 1] — the
`val > 1 ⇒ val / 100` normalization does not clamp values above 100. -/
theorem llm_confidence_exceeds_one :
    geminiParseConfidence ("Confidence: 200".toList) = some 2
    ∧ ¬ ((2 : ℚ) ≤ 1) := by
  constructor
  · have h1 : findConfidenceToken ("Confidence: 200".toList)
        = some ['2', '0', '0'] := by decide
    have h2 : parseFloatTok ['2', '0', '0'] = some 200 := by decide
    unfold geminiParseConfidence parseConfidenceWith
    rw [h1]
    show (parseFloatTok ['2', '0', '0']).map
      (fun val => if 1 < val then val / 100 else val) = some 2
    rw [h2]
    simp only [Option.map_some']
    rw [if_pos (by norm_num : (1 : ℚ) < 200)]
    norm_num
  · norm_num

/-- C7 (amended): the aggregate retrieval confidence is always in [0,1]
for scores in [0,1]; the extracted LLM confidence is always nonnegative,
and is at most 1 except when the response carries an explicit
`Confidence:` value strictly above 100, in which case it equals
`val / 100 > 1`.  (The original claim that the LLM confidence is always
in [0,1] fails, see the counterexample.) -/
theorem confidence_bounds_amended :
    (∀ (results : List VectorSearchResult) (threshold : ℚ),
      (∀ r ∈ results, 0 ≤ r.score ∧ r.score ≤ 1) →
      0 ≤ computeAggregateConfidence results threshold
      ∧ computeAggregateConfidence results threshold ≤ 1)
    ∧ (∀ (markers : List (List Char)) (text : List Char) (v : ℚ),
      parseConfidenceWith markers text = some v →
      0 ≤ v ∧ (v ≤ 1 ∨ ∃ tok val, findConfidenceToken text = some tok
        ∧ parseFloatTok tok = some val ∧ 100 < val ∧ v = val / 100)) := by
  constructor
  · exact fun results threshold hb => aggregate_in_unit results threshold hb
  · intro markers text v h
    unfold parseConfidenceWith at h
    split at h
    next tok htok =>
      rcases hval : parseFloatTok tok with _ | val
      · rw [hval] at h
        simp at h
      · rw [hval] at h
        simp only [Option.map_some', Option.some.injEq] at h
        have hv0 := parseFloatTok_nonneg tok val hval
        split_ifs at h with h1
        · subst h
          by_cases h100 : val ≤ 100
          · refine ⟨div_nonneg hv0 (by norm_num), Or.inl ?_⟩
            rw [div_le_one (by norm_num : (0 : ℚ) < 100)]
            exact h100
          · refine ⟨div_nonneg hv0 (by norm_num),
              Or.inr ⟨tok, val, htok, hval, by linarith, rfl⟩⟩
        · subst h
          exact ⟨hv0, Or.inl (le_of_not_lt h1)⟩
    next =>
      rcases hm : (markers.any fun m => containsSub (text.map Char.toLower) m)
        with _ | _ <;> simp only [hm] at h <;>
        simp only [Bool.false_eq_true, if_false, if_true,
          Option.some.injEq] at h <;> subst h <;>
        exact ⟨by norm_num, Or.inl (by norm_num)⟩

/-- C7 amended witness: the aggregate-confidence bound instantiated at a
concrete single-hit search. -/
theorem confidence_bounds_amended_witness :
    0 ≤ computeAggregateConfidence [sampleVSR] (mkRat 3 4)
    ∧ computeAggregateConfidence [sampleVSR] (mkRat 3 4) ≤ 1 :=
  confidence_bounds_amended.1 [sampleVSR] (mkRat 3 4) (by decide)

/-! ## Claim theorems: the message pipeline -/

/-- C2: when the resolved conversation already has status `escalated`,
the run persists the inbound message and stops — no retrieval call, no
LLM call, no outbound send, no escalation, no further row. -/
theorem pipeline_escalated_mute (env : PipelineEnv) (o : Org)
    (horg : env.org = some o)
    (hesc : env.conversation.status = "escalated") :
    handleInboundMessage env =
      { emptyEffects with
        savedMessages :=
          [mkInboundRow env.conversation.id env.orgId env.msg] } := by
  unfold handleInboundMessage
  rw [horg]
  simp only [hesc, if_pos]

/-- C2 witness: the mute branch at a concrete escalated environment. -/
theorem pipeline_escalated_mute_witness :
    handleInboundMessage envEscalated =
      { emptyEffects with
        savedMessages := [mkInboundRow envEscalated.conversation.id
          envEscalated.orgId envEscalated.msg] } :=
  pipeline_escalated_mute envEscalated sampleOrg rfl rfl

/-- C1: when the run reaches the confidence gate and the LLM confidence
is strictly below the organization's threshold, the full effect trace
is: the inbound row, one bot row carrying the organization's fallback
text with hard-coded confidence 0.1 and an empty linked-doc-id set, the
fallback sent once via the transport, and exactly one escalation insert
with status `pending` and reason `"LLM confidence too low: "` followed
by the rendered confidence, together with one conversation-status update
to `escalated`. -/
theorem pipeline_low_confidence_effects (env : PipelineEnv) (o : Org)
    (resp : LLMResponse) (ctx : ChatContext)
    (results : List RetrievalResult) (agg : ℚ)
    (horg : env.org = some o)
    (hst : env.conversation.status ≠ "escalated")
    (hret : env.retrievalOutcome = .ok (results, agg))
    (hasm : env.assembleOutcome = .ok ctx)
    (hllm : env.llmOutcome = .ok resp)
    (hconf : resp.confidence < jsOrNum o.settings.confidence_threshold
      env.configLlmConfidenceThreshold)
    (htr : env.transportPresent = true)
    (hsend : env.sendOk = true) :
    handleInboundMessage env =
      { savedMessages :=
          [mkInboundRow env.conversation.id env.orgId env.msg,
           mkBotRow env.conversation.id env.orgId
             (jsOrStr o.settings.fallback_message defaultFallbackMessage)
             (1 / 10) []]
        retrievalCalls :=
          [(env.orgId, env.msg.body,
            jsOrNat o.settings.rag_top_k env.configRagTopK,
            jsOrNum o.settings.similarity_threshold
              env.configRagSimilarityThreshold)]
        llmCalls := [(o.name, env.msg.body, trimContext env.maxTokens ctx)]
        sentMessages := [(env.msg.fromPhone,
          jsOrStr o.settings.fallback_message defaultFallbackMessage)]
        escalationInserts :=
          [{ org_id := env.orgId, conversation_id := env.conversation.id
             customer_id := env.customerId
             reason := "LLM confidence too low: "
               ++ env.renderNum resp.confidence
             status := "pending" }]
        conversationUpdates := [(env.conversation.id, "escalated")] } := by
  unfold handleInboundMessage handleLowConfidence createEscalation
  rw [horg, hret, hasm, hllm]
  simp only [if_neg hst, if_pos hconf, htr, hsend, if_true, emptyEffects,
    List.nil_append]
  rfl

/-- C1 witness: the low-confidence trace at a concrete environment. -/
theorem pipeline_low_confidence_effects_witness :
    handleInboundMessage envLowConf =
      { savedMessages :=
          [mkInboundRow envLowConf.conversation.id envLowConf.orgId
             envLowConf.msg,
           mkBotRow envLowConf.conversation.id envLowConf.orgId
             (jsOrStr sampleOrg.settings.fallback_message
               defaultFallbackMessage) (1 / 10) []]
        retrievalCalls :=
          [(envLowConf.orgId, envLowConf.msg.body,
            jsOrNat sampleOrg.settings.rag_top_k envLowConf.configRagTopK,
            jsOrNum sampleOrg.settings.similarity_threshold
              envLowConf.configRagSimilarityThreshold)]
        llmCalls := [(sampleOrg.name, envLowConf.msg.body,
          trimContext envLowConf.maxTokens emptyContext)]
        sentMessages := [(envLowConf.msg.fromPhone,
          jsOrStr sampleOrg.settings.fallback_message
            defaultFallbackMessage)]
        escalationInserts :=
          [{ org_id := envLowConf.orgId
             conversation_id := envLowConf.conversation.id
             customer_id := envLowConf.customerId
             reason := "LLM confidence too low: "
               ++ envLowConf.renderNum sampleResp.confidence
             status := "pending" }]
        conversationUpdates :=
          [(envLowConf.conversation.id, "escalated")] } :=
  pipeline_low_confidence_effects envLowConf sampleOrg sampleResp
    emptyContext [] 0 rfl (by decide) rfl rfl rfl (by decide) rfl rfl

/-- C8 counterexample: a concrete run in which the retrieval step throws
— the pipeline does not degrade to empty results and continue; it makes
no LLM call and sends nothing, keeping only the persisted inbound row
and the attempted retrieval call. -/
theorem retrieval_failure_no_llm_call :
    envRetrievalFail.retrievalOutcome = Except.error ()
    ∧ (handleInboundMessage envRetrievalFail).llmCalls = []
    ∧ (handleInboundMessage envRetrievalFail).sentMessages = []
    ∧ (handleInboundMessage envRetrievalFail).savedMessages
        = [mkInboundRow "conv1" "org1" sampleMsg] := by
  refine ⟨rfl, ?_, ?_, ?_⟩ <;> rfl

/-- C8 (amended): a retrieval failure aborts bot-response processing for
that message — the error reaches the top-level catch, the inbound row
persisted before retrieval is kept, and no context assembly, LLM call,
outbound send or escalation occurs; the handler itself returns normally
(sibling messages are unaffected). -/
theorem retrieval_failure_aborts_run (env : PipelineEnv) (o : Org)
    (horg : env.org = some o)
    (hst : env.conversation.status ≠ "escalated")
    (hret : env.retrievalOutcome = .error ()) :
    handleInboundMessage env =
      { emptyEffects with
        savedMessages :=
          [mkInboundRow env.conversation.id env.orgId env.msg]
        retrievalCalls :=
          [(env.orgId, env.msg.body,
            jsOrNat o.settings.rag_top_k env.configRagTopK,
            jsOrNum o.settings.similarity_threshold
              env.configRagSimilarityThreshold)] } := by
  unfold handleInboundMessage
  rw [horg, hret]
  simp only [if_neg hst, emptyEffects]

/-- C8 amended witness: the abort trace at a concrete environment. -/
theorem retrieval_failure_aborts_run_witness :
    handleInboundMessage envRetrievalFail =
      { emptyEffects with
        savedMessages := [mkInboundRow envRetrievalFail.conversation.id
          envRetrievalFail.orgId envRetrievalFail.msg]
        retrievalCalls :=
          [(envRetrievalFail.orgId, envRetrievalFail.msg.body,
            jsOrNat sampleOrg.settings.rag_top_k
              envRetrievalFail.configRagTopK,
            jsOrNum sampleOrg.settings.similarity_threshold
              envRetrievalFail.configRagSimilarityThreshold)] } :=
  retrieval_failure_aborts_run envRetrievalFail sampleOrg rfl (by decide)
    rfl

/-! ## Claim theorems: the context assembler -/

/-- C9 counterexample: a failure of the customer-profile sub-fetch —
which is not organization lookup — is fatal to assembly: `Promise.all`
rejects the whole `assemble` call. -/
theorem assembly_fails_on_profile_fetch_failure :
    assembleEnvProfileFail.profileFetch = Except.error ()
    ∧ assembleEnvProfileFail.historyFetch = Except.ok []
    ∧ assemble [] assembleEnvProfileFail = Except.error () :=
  ⟨rfl, rfl, rfl⟩

/-- C9 (amended): the five sub-fetches are combined with `Promise.all` —
when all five succeed, assembly returns the context built from their
results with the retrieval results passed through; a failure of *any*
single sub-fetch (none of which is organization lookup) rejects the
whole assembly; organization lookup happens earlier, in pipeline step 1,
and its failure aborts the run with no effects at all. -/
theorem assemble_promise_all_semantics :
    (∀ (rr : List RetrievalResult) (h : List ContextMessage)
        (p s a : List Char) (b : List BotAnswer),
      assemble rr { historyFetch := .ok h, profileFetch := .ok p
                    sessionFetch := .ok s, automationFetch := .ok a
                    botAnswersFetch := .ok b }
        = .ok { conversation_history := h, customer_profile := p
                session_metadata := s, automation_config := a
                retrieval_results := rr, previous_bot_answers := b })
    ∧ (∀ (rr : List RetrievalResult) (env : AssembleEnv),
      assemble rr env = .error ()
        ↔ (env.historyFetch = .error () ∨ env.profileFetch = .error ()
          ∨ env.sessionFetch = .error () ∨ env.automationFetch = .error ()
          ∨ env.botAnswersFetch = .error ()))
    ∧ (∀ env : PipelineEnv, env.org = none
        → handleInboundMessage env = emptyEffects) := by
  refine ⟨fun rr h p s a b => rfl, ?_, ?_⟩
  · intro rr env
    obtain ⟨hf, pf, sf, af, bf⟩ := env
    rcases hf with ⟨⟨⟩⟩ | hv <;> rcases pf with ⟨⟨⟩⟩ | pv <;>
      rcases sf with ⟨⟨⟩⟩ | sv <;> rcases af with ⟨⟨⟩⟩ | av <;>
      rcases bf with ⟨⟨⟩⟩ | bv <;>
      simp [assemble, promiseAll5]
  · intro env horg
    unfold handleInboundMessage
    rw [horg]

/-- C9 amended witness: organization-lookup failure aborts the run with
no effects, at a concrete environment. -/
theorem assemble_promise_all_semantics_witness :
    handleInboundMessage envOrgNone = emptyEffects :=
  assemble_promise_all_semantics.2.2 envOrgNone rfl

end WhatsappAutomation
